import Mathlib

/-!
Verification of the status-line handling core (`bar.c`) of the i3blocks
repository.  The embedding below translates the source functions into pure
Lean functions: the attribute maps of blocks and clicks become association
lists, the standard-output side effects become returned strings, and the
process-global log-sink registration becomes an explicit boolean threaded
through creation and teardown.  External collaborators that are not part of
the given sources (the generic map, the JSON validity/escape primitive, the
log-level constants) are modelled from the specification, as marked on the
corresponding definitions.
-/

/-- Modelled from the spec: an AttributeSet is a mapping from string keys to
string values with unique keys and overwrite-on-set (the generic map module
is not among the given sources).  A value may be absent (the C map stores a
null pointer), which the per-key encoder of `bar.c` handles explicitly. -/
abbrev AttrMap : Type := List (String × Option String)

/-- Modelled from the spec: map lookup; a stored null value is
indistinguishable from an absent key. -/
def map_get (m : AttrMap) (k : String) : Option String :=
  match List.find? (fun p => p.1 == k) m with
  | some p => p.2
  | none => none

/-- Modelled from the spec: overwrite-on-set; an existing key keeps its
position in the map, a new key is appended. -/
def map_set (m : AttrMap) (k : String) (v : Option String) : AttrMap :=
  if List.any m (fun p => p.1 == k) then
    List.map (fun p => if p.1 == k then (k, v) else p) m
  else
    m ++ [(k, v)]

/-- Block data: one renderable segment owning an AttributeSet (`block.h` is
external; only its attribute map matters to `bar.c`). -/
abbrev Block : Type := AttrMap

/-- Lookup of one block attribute (external `block_get`). -/
def block_get (b : Block) (k : String) : Option String := map_get b k

/-- Bar state from `bar.h`: the ordered block list, the output-mode flag and
the frozen flag. -/
structure Bar where
  blocks : List Block
  term : Bool
  frozen : Bool

/-- Modelled from the spec: log severity levels (`log.h` is not among the
given sources); fatal is more severe than error, smaller numbers are more
severe. -/
def LOG_FATAL : Nat := 0

/-- Modelled from the spec: the error severity, least severe level that ever
reaches the bar. -/
def LOG_ERROR : Nat := 1

/-- Modelled from the spec: errno value used by the line decoder to signal
that no more data is currently available. -/
def EAGAIN : Int := 11

/-- Modelled from the spec: the fixed capacity of the formatting buffers
(`BUFSIZ`). -/
def BUFSIZ : Nat := 8192

/-- Modelled from the spec: body scanner of the JSON-string recogniser; the
opening quote has been consumed, a backslash escapes the next character and
the closing quote must end the value. -/
def json_str_body : List Char → Bool
  | [] => false
  | ['"'] => true
  | '"' :: _ :: _ => false
  | '\\' :: _ :: rest => json_str_body rest
  | _ :: rest => json_str_body rest

/-- Modelled from the spec: `json_is_string` of the external JSON primitive
(`json.c` is not among the given sources) recognises a syntactically valid
quoted JSON string. -/
def json_is_string (s : String) : Bool :=
  match s.data with
  | '"' :: rest => json_str_body rest
  | _ => false

/-- Modelled from the spec: JSON number recogniser (optional minus sign,
digits, optional fractional part). -/
def json_is_number (s : String) : Bool :=
  let cs := match s.data with
    | '-' :: rest => rest
    | cs => cs
  let ip := cs.takeWhile (fun c => c.isDigit)
  let rest := cs.dropWhile (fun c => c.isDigit)
  !ip.isEmpty &&
    (rest.isEmpty ||
      (rest.headD 'x' == '.' && !rest.tail.isEmpty &&
        rest.tail.all (fun c => c.isDigit)))

/-- Modelled from the spec: `json_is_valid` accepts a value that already
parses as valid JSON: a number, a boolean or null literal, or a valid
string. -/
def json_is_valid (s : String) : Bool :=
  json_is_string s || json_is_number s || s == "true" || s == "false" || s == "null"

/-- Modelled from the spec: escaping of one character inside a JSON
string. -/
def json_escape_char (c : Char) : List Char :=
  if c = '"' then ['\\', '"']
  else if c = '\\' then ['\\', '\\']
  else if c = '\n' then ['\\', 'n']
  else if c = '\t' then ['\\', 't']
  else [c]

/-- Modelled from the spec: `json_escape` quotes and escapes a raw value
into a fixed-size buffer; a value that does not fit is a hard failure for
that key. -/
def json_escape (s : String) : Except Int String :=
  let escaped : List Char := '"' :: (List.flatten (s.data.map json_escape_char)) ++ ['"']
  if escaped.length + 1 ≤ BUFSIZ then Except.ok (String.mk escaped)
  else Except.error (-28)

/-- Known-Key Table of `bar.c` (`i3bar_keys`): index 0 is the sentinel for an
unrecognized key; each entry carries the "must be a JSON string" flag. -/
def i3bar_keys : List (String × Bool) :=
  [("", false),
   ("full_text", true),
   ("short_text", true),
   ("color", true),
   ("background", true),
   ("border", true),
   ("min_width", false),
   ("align", true),
   ("name", true),
   ("instance", true),
   ("urgent", false),
   ("separator", false),
   ("separator_block_width", false),
   ("markup", true),
   ("border_top", false),
   ("border_bottom", false),
   ("border_left", false),
   ("border_right", false)]

/-- Scan of the Known-Key Table (`i3bar_indexof` loop), returning the index
of the first matching entry and 0 when the key is unknown. -/
def i3bar_indexof_go (key : String) : List (String × Bool) → Nat → Nat
  | [], _ => 0
  | p :: rest, i => if p.1 == key then i else i3bar_indexof_go key rest (i + 1)

/-- Index of a key in the Known-Key Table (`i3bar_indexof`); 0 for an
unknown key. -/
def i3bar_indexof (key : String) : Nat :=
  i3bar_indexof_go key i3bar_keys 0

/-- Per-key structured encoding (`i3bar_dump_key`): unknown keys emit
nothing, a missing value is replaced by the text `null`, and the value is
escaped unless it already has the JSON shape required by the key's flag. -/
def i3bar_dump_key (key : String) (value : Option String) : Except Int String :=
  let index := i3bar_indexof key
  if index = 0 then Except.ok ""
  else
    let mustString := (i3bar_keys.getD index ("", false)).2
    let v := value.getD "null"
    let escape := if mustString then !(json_is_string v) else !(json_is_valid v)
    if escape then
      match json_escape v with
      | Except.error e => Except.error e
      | Except.ok buf => Except.ok (",\"" ++ key ++ "\":" ++ buf)
    else
      Except.ok (",\"" ++ key ++ "\":" ++ v)

/-- Iteration of `block_for_each` inside `i3bar_dump_block`: each attribute
pair is encoded in map order and a per-key failure aborts the remaining
pairs (the enclosing object is still closed by the caller). -/
def i3bar_dump_pairs : AttrMap → String
  | [] => ""
  | (k, v) :: rest =>
    match i3bar_dump_key k v with
    | Except.ok s => s ++ i3bar_dump_pairs rest
    | Except.error _ => ""

/-- Structured encoding of one block (`i3bar_dump_block`): a dummy empty
key/value pair opens the object to simplify comma placement. -/
def i3bar_dump_block (b : Block) : String :=
  ",\x7b\"\":\"\"" ++ i3bar_dump_pairs b ++ "\x7d"

/-- Block-list part of `i3bar_dump`: a block without a `full_text` attribute
is skipped entirely. -/
def i3bar_dump_blocks : List Block → String
  | [] => ""
  | b :: rest =>
    (if (block_get b "full_text").isSome then i3bar_dump_block b else "") ++
      i3bar_dump_blocks rest

/-- Structured dump of the bar (`i3bar_dump`): one more element of the
top-level array, opened by the fixed anchor object. -/
def i3bar_dump (blocks : List Block) : String :=
  ",[\x7b\"full_text\":\"\"\x7d" ++ i3bar_dump_blocks blocks ++ "]\n"

/-- Terminal dump (`term_dump`): cursor restore then the space-joined
`full_text` values. -/
def term_dump (blocks : List Block) : String :=
  "\x1b[u\x1b[K" ++
    String.join (blocks.map (fun b =>
      match block_get b "full_text" with
      | some t => t ++ " "
      | none => ""))

/-- Scheduled dump entry point (`bar_dump`): a frozen bar produces no
output, otherwise the mode-specific renderer runs. -/
def bar_dump (bar : Bar) : String :=
  if bar.frozen then ""
  else if bar.term then term_dump bar.blocks
  else i3bar_dump bar.blocks

/-- Error Adapter (`i3bar_log`): events more verbose than the configured
threshold `ll` or less severe than error are ignored; otherwise one
out-of-band top-level array element is written and the bar freezes.  The
message formatting buffer is assumed not to overflow (truncation of
over-long messages is not modelled). -/
def i3bar_log (ll lvl : Nat) (msg : String) (bar : Bar) : String × Bar :=
  if ll < lvl ∨ LOG_ERROR < lvl then ("", bar)
  else
    let pfx := if lvl = LOG_FATAL then "Fatal! "
      else if lvl = LOG_ERROR then "Error: " else ""
    let color := if lvl = LOG_FATAL then "#FF0000"
      else if lvl = LOG_ERROR then "#FF8000" else "#FFFFFF"
    (",[\x7b\"full_text\":\"" ++
       (pfx ++ msg ++ ". Increase log level and/or check stderr for details.") ++
       "\",\"short_text\":\"" ++ (pfx ++ msg) ++
       "\",\"urgent\":\"true\",\"color\":\"" ++ color ++ "\"\x7d]\n",
     { bar with frozen := true })

/-- Structured-mode creation and teardown, modelling the output bytes and
the process-global log-sink slot as an explicit boolean.  `bar_create` of
`bar.c` allocates the sentinel block and, in structured mode, writes the
protocol preamble and installs the Error Adapter (`i3bar_start`). -/
def bar_create (installed : Bool) (term : Bool) : Bar × String × Bool :=
  let bar : Bar := ⟨[[]], term, false⟩
  if term then (bar, "\x1b[s\x1b[?25l" ++ "\x1b[u\x1b[K", installed)
  else (bar, "\x7b\"version\":1,\"click_events\":true\x7d\n[[]\n", true)

/-- Teardown (`bar_destroy`): terminal mode reveals the cursor; structured
mode uninstalls the Error Adapter and writes the protocol epilogue
(`i3bar_stop`). -/
def bar_destroy (installed : Bool) (bar : Bar) : String × Bool :=
  if bar.term then ("\x1b[?25h", installed)
  else ("]\n", false)

/-- Bool test of one block against the identifiers of a click
(`bar_find` loop body): exact string equality on name and instance, each
side defaulting to the empty string when absent. -/
def click_matches (click b : AttrMap) : Bool :=
  ((map_get b "name").getD "" == (map_get click "name").getD "") &&
    ((map_get b "instance").getD "" == (map_get click "instance").getD "")

/-- Search for the block a click belongs to (`bar_find`), returning the
position of the first matching block in list order. -/
def bar_find : List Block → AttrMap → Option Nat
  | [], _ => none
  | b :: rest, click =>
    if click_matches click b then some 0
    else (bar_find rest click).map (fun i => i + 1)

/-- Merge of the click attributes into the matched block
(`map_for_each` with `bar_click_copy_cb`): pairs are copied in map order
with overwrite semantics; `se` models the external `block_set` error return
and a nonzero result aborts the remaining pairs. -/
def merge_click (se : String → Option String → Int) : Block → AttrMap → Int × Block
  | b, [] => (0, b)
  | b, (k, v) :: rest =>
    let e := se k v
    if e = 0 then merge_click se (map_set b k v) rest
    else (e, b)

/-- Click-dispatch loop of `bar_click`: each input event is either a decode
failure of `json_read` (nonzero error) or one decoded click map.  `se`
models `block_set` failures and `act` the external `block_click` action.
The result carries the returned error, the final block list and the
positions of the blocks whose click action was invoked, in order. -/
def bar_click_go (se : String → Option String → Int) (act : Block → Int) :
    List Block → List (Except Int AttrMap) → Int × List Block × List Nat
  | blocks, [] => (0, blocks, [])
  | blocks, Except.error e :: _ =>
    ((if e = -EAGAIN then 0 else e), blocks, [])
  | blocks, Except.ok click :: rest =>
    match bar_find blocks click with
    | none => bar_click_go se act blocks rest
    | some i =>
      let mr := merge_click se (blocks.getD i []) click
      let blocks1 := blocks.set i mr.2
      if mr.1 = 0 then
        let e2 := act mr.2
        if e2 = 0 then
          let r := bar_click_go se act blocks1 rest
          (r.1, r.2.1, i :: r.2.2)
        else (e2, blocks1, [i])
      else (mr.1, blocks1, [])

/-- Result of one `bar_click` invocation: the returned error, the bar after
the call, the output written by the entry unfreeze-dump, whether that extra
dump happened, and the click-action invocation positions. -/
structure ClickResult where
  err : Int
  bar : Bar
  output : String
  extraDump : Bool
  invoked : List Nat

/-- Click dispatcher entry point (`bar_click`): a frozen bar is unfrozen and
one immediate dump is forced before any input line is read, then the
dispatch loop runs. -/
def bar_click (se : String → Option String → Int) (act : Block → Int)
    (bar : Bar) (input : List (Except Int AttrMap)) : ClickResult :=
  let unf := bar.frozen
  let bar1 : Bar := { bar with frozen := false }
  let out := if unf then bar_dump bar1 else ""
  let r := bar_click_go se act bar1.blocks input
  { err := r.1
    bar := { bar1 with blocks := r.2.1 }
    output := out
    extraDump := unf
    invoked := r.2.2 }

/-- Setter model without failures, used where the spec scenario assumes the
external `block_set` collaborator succeeds. -/
def zeroSet : String → Option String → Int := fun _ _ => 0

/-- Substring scan over character lists (used to state what the emitted
bytes do and do not contain). -/
def listInfix (pat : List Char) : List Char → Bool
  | [] => pat.isEmpty
  | c :: rest => List.isPrefixOf pat (c :: rest) || listInfix pat rest

/-- Substring test on strings. -/
def strContains (s pat : String) : Bool :=
  listInfix pat.data s.data

/-- Helper: appending on the right preserves a fixed two-byte head. -/
lemma append_head_pre (p u : String) (h : ∃ r, p = ",[" ++ r) :
    ∃ r, p ++ u = ",[" ++ r := by
  obtain ⟨r, hr⟩ := h
  exact ⟨r ++ u, by rw [hr, String.append_assoc]⟩

/-- Helper: a merge whose setter never fails copies every pair in order with
overwrite semantics. -/
lemma merge_click_zero (b : Block) (click : AttrMap) :
    merge_click zeroSet b click =
      (0, List.foldl (fun acc kv => map_set acc kv.1 kv.2) b click) := by
  induction click generalizing b with
  | nil => rfl
  | cons kv rest ih =>
    obtain ⟨k, v⟩ := kv
    simp [merge_click, zeroSet, ih]

/-- Helper: characterization of `bar_find` — the returned index is in range,
its block matches the click identifiers, and no earlier block does. -/
lemma bar_find_spec (blocks : List Block) (click : AttrMap) (i : Nat)
    (h : bar_find blocks click = some i) :
    i < blocks.length ∧ click_matches click (blocks.getD i []) = true ∧
    ∀ j, j < i → click_matches click (blocks.getD j []) = false := by
  induction blocks generalizing i with
  | nil => simp [bar_find] at h
  | cons b rest ih =>
    unfold bar_find at h
    by_cases hm : click_matches click b = true
    · rw [if_pos hm] at h
      injection h with h
      subst h
      exact ⟨Nat.succ_pos _, by simpa using hm, fun j hj => absurd hj (Nat.not_lt_zero _)⟩
    · rw [if_neg hm] at h
      obtain ⟨i', hi', rfl⟩ := Option.map_eq_some'.mp h
      obtain ⟨h1, h2, h3⟩ := ih i' hi'
      refine ⟨Nat.succ_lt_succ h1, by simpa using h2, ?_⟩
      intro j hj
      cases j with
      | zero => simpa using Bool.eq_false_iff.mpr hm
      | succ j' => simpa using h3 j' (Nat.lt_of_succ_lt_succ hj)

/-- C1: the claim states that the frozen flag is cleared only on a
successful click-line decode, and stays unchanged when no click line is
decoded.  Counterexample: a frozen bar whose input yields only the
"no more data" decode failure is nevertheless unfrozen (and one extra dump
is emitted) by `bar_click`, because the unfreeze happens at entry, before
any line is read. -/
theorem spec_c1_counterexample :
    (bar_click zeroSet (fun _ => 0) ⟨[[]], false, true⟩
        [Except.error (-EAGAIN)]).bar.frozen = false ∧
    (bar_click zeroSet (fun _ => 0) ⟨[[]], false, true⟩
        [Except.error (-EAGAIN)]).err = 0 ∧
    (bar_click zeroSet (fun _ => 0) ⟨[[]], false, true⟩
        [Except.error (-EAGAIN)]).output = ",[\x7b\"full_text\":\"\"\x7d]\n" := by
  refine ⟨rfl, ?_, rfl⟩
  decide

/-- C1 (amended): the frozen flag reverts to false at the start of every
`bar_click` invocation, before any click line is decoded: exactly one
unfreeze occurs per invocation while frozen, and it triggers exactly one
extra dump before any click is read or matched; the flag ends up false even
when no click line is successfully decoded. -/
theorem spec_c1_amended (se : String → Option String → Int) (act : Block → Int)
    (bar : Bar) (input : List (Except Int AttrMap)) :
    (bar_click se act bar input).bar.frozen = false ∧
    (bar_click se act bar input).extraDump = bar.frozen ∧
    (bar_click se act bar input).output =
      (if bar.frozen then bar_dump { bar with frozen := false } else "") :=
  ⟨rfl, rfl, rfl⟩

/-- C2: the claim states that a surfaced error/fatal element carries
`urgent: true`.  Counterexample: the element written for an error event
does not contain the JSON pair `"urgent":true`; it contains
`"urgent":"true"`, the value being a quoted string rather than the JSON
boolean. -/
theorem spec_c2_counterexample :
    strContains (i3bar_log 1 LOG_ERROR "boom" ⟨[[]], false, false⟩).1
      "\"urgent\":true" = false ∧
    strContains (i3bar_log 1 LOG_ERROR "boom" ⟨[[]], false, false⟩).1
      "\"urgent\":\"true\"" = true := by
  decide

/-- C2 (amended): a log event more verbose than the threshold or less
severe than error produces no bar output and leaves the bar untouched;
an error event within threshold writes one independent top-level array
element with full_text = prefix + message + the fixed instructional suffix,
short_text = prefix + message, the pair `"urgent":"true"` (the value is the
quoted string, not the JSON boolean) and color #FF8000 (#FF0000 for fatal),
then freezes the bar so that subsequent dumps produce no output. -/
theorem spec_c2_amended (ll lvl : Nat) (msg : String) (bar : Bar) :
    (ll < lvl ∨ LOG_ERROR < lvl → i3bar_log ll lvl msg bar = ("", bar)) ∧
    (lvl ≤ ll → lvl = LOG_ERROR →
      i3bar_log ll lvl msg bar =
        (",[\x7b\"full_text\":\"" ++
           ("Error: " ++ msg ++ ". Increase log level and/or check stderr for details.") ++
           "\",\"short_text\":\"" ++ ("Error: " ++ msg) ++
           "\",\"urgent\":\"true\",\"color\":\"" ++ "#FF8000" ++ "\"\x7d]\n",
         { bar with frozen := true }) ∧
      bar_dump { bar with frozen := true } = "") ∧
    (lvl ≤ ll → lvl = LOG_FATAL →
      i3bar_log ll lvl msg bar =
        (",[\x7b\"full_text\":\"" ++
           ("Fatal! " ++ msg ++ ". Increase log level and/or check stderr for details.") ++
           "\",\"short_text\":\"" ++ ("Fatal! " ++ msg) ++
           "\",\"urgent\":\"true\",\"color\":\"" ++ "#FF0000" ++ "\"\x7d]\n",
         { bar with frozen := true })) := by
  refine ⟨fun h => ?_, fun h1 h2 => ?_, fun h1 h2 => ?_⟩
  · unfold i3bar_log
    rw [if_pos h]
  · subst h2
    unfold i3bar_log LOG_ERROR LOG_FATAL at *
    rw [if_neg (by omega)]
    norm_num
    rfl
  · subst h2
    unfold i3bar_log LOG_ERROR LOG_FATAL at *
    rw [if_neg (by omega)]
    norm_num

/-- C2 witness: the amended claim evaluated on an error event with message
"boom" at threshold 1. -/
theorem spec_c2_amended_witness :
    LOG_ERROR ≤ 1 ∧
    i3bar_log 1 LOG_ERROR "boom" ⟨[[]], false, false⟩ =
      (",[\x7b\"full_text\":\"" ++
         ("Error: " ++ "boom" ++ ". Increase log level and/or check stderr for details.") ++
         "\",\"short_text\":\"" ++ ("Error: " ++ "boom") ++
         "\",\"urgent\":\"true\",\"color\":\"" ++ "#FF8000" ++ "\"\x7d]\n",
       ⟨[[]], false, true⟩) ∧
    bar_dump ⟨[[]], false, true⟩ = "" :=
  ⟨by decide,
   ((spec_c2_amended 1 LOG_ERROR "boom" ⟨[[]], false, false⟩).2.1
      (by decide) rfl).1,
   ((spec_c2_amended 1 LOG_ERROR "boom" ⟨[[]], false, false⟩).2.1
      (by decide) rfl).2⟩

/-- C3: for a successfully decoded click, the dispatcher selects the first
block in list order whose (name, instance) pair — each side defaulting to
the empty string — is string-equal to the click's pair; every (key, value)
pair of the click is then merged into that block with overwrite semantics,
and the block's click action is invoked exactly once for that line. -/
theorem spec_c3 (act : Block → Int) (blocks : List Block) (click : AttrMap)
    (rest : List (Except Int AttrMap)) (i : Nat)
    (h : bar_find blocks click = some i) :
    (i < blocks.length ∧ click_matches click (blocks.getD i []) = true ∧
      ∀ j, j < i → click_matches click (blocks.getD j []) = false) ∧
    bar_click_go zeroSet act blocks (Except.ok click :: rest) =
      (if act (List.foldl (fun acc kv => map_set acc kv.1 kv.2) (blocks.getD i []) click) = 0 then
         ((bar_click_go zeroSet act
             (blocks.set i (List.foldl (fun acc kv => map_set acc kv.1 kv.2) (blocks.getD i []) click)) rest).1,
          (bar_click_go zeroSet act
             (blocks.set i (List.foldl (fun acc kv => map_set acc kv.1 kv.2) (blocks.getD i []) click)) rest).2.1,
          i :: (bar_click_go zeroSet act
             (blocks.set i (List.foldl (fun acc kv => map_set acc kv.1 kv.2) (blocks.getD i []) click)) rest).2.2)
       else
         (act (List.foldl (fun acc kv => map_set acc kv.1 kv.2) (blocks.getD i []) click),
          blocks.set i (List.foldl (fun acc kv => map_set acc kv.1 kv.2) (blocks.getD i []) click),
          [i])) := by
  refine ⟨bar_find_spec blocks click i h, ?_⟩
  rw [bar_click_go, h]
  dsimp only
  rw [merge_click_zero]
  dsimp only
  norm_num

/-- C3 witness: the spec scenario — a click for (cpu, 0) with a button field
reaches the second block, which gains the button attribute, and its click
action runs once. -/
theorem spec_c3_witness :
    bar_find [[], [("name", some "cpu"), ("instance", some "0")]]
        [("name", some "cpu"), ("instance", some "0"), ("button", some "1")] = some 1 ∧
    bar_click_go zeroSet (fun _ => 0) [[], [("name", some "cpu"), ("instance", some "0")]]
        [Except.ok [("name", some "cpu"), ("instance", some "0"), ("button", some "1")]] =
      (0, [[], [("name", some "cpu"), ("instance", some "0"), ("button", some "1")]], [1]) :=
  ⟨by decide,
   ((spec_c3 (fun _ => 0) [[], [("name", some "cpu"), ("instance", some "0")]]
       [("name", some "cpu"), ("instance", some "0"), ("button", some "1")] [] 1
       (by decide)).2).trans (by decide)⟩

/-- C4: the claim states that a missing value is emitted as the JSON
literal null for every known key.  Counterexample: the key `full_text` is
flagged "must be a string", so the substituted text null is escaped and the
emitted value is the quoted JSON string, not the literal. -/
theorem spec_c4_counterexample :
    i3bar_dump_key "full_text" none = Except.ok ",\"full_text\":\"null\"" ∧
    i3bar_dump_key "full_text" none ≠ Except.ok ",\"full_text\":null" := by
  refine ⟨rfl, fun h => ?_⟩
  rw [show i3bar_dump_key "full_text" none = Except.ok ",\"full_text\":\"null\"" from rfl] at h
  injection h with h
  exact absurd h (by decide)

/-- C4 (amended): for every key of the Known-Key Table, a missing value is
replaced by the text null; it is emitted as the JSON literal null when the
key is not flagged "must be a string", and as the quoted JSON string
`"null"` when it is. -/
theorem spec_c4_amended (key : String) (h : i3bar_indexof key ≠ 0) :
    i3bar_dump_key key none =
      Except.ok (",\"" ++ key ++ "\":" ++
        (if (i3bar_keys.getD (i3bar_indexof key) ("", false)).2 then "\"null\""
         else "null")) := by
  unfold i3bar_dump_key
  rw [if_neg h]
  cases hf : (i3bar_keys.getD (i3bar_indexof key) ("", false)).2
  · simp only [hf, Bool.false_eq_true, if_false, Option.getD_none]
    rw [show json_is_valid "null" = true from rfl]
    rfl
  · simp only [hf, if_true, Option.getD_none]
    rw [show json_is_string "null" = false from rfl]
    rfl

/-- C4 witness: the amended claim evaluated at a string-flagged key and at a
non-string key. -/
theorem spec_c4_amended_witness :
    (i3bar_indexof "urgent" ≠ 0 ∧
      i3bar_dump_key "urgent" none = Except.ok ",\"urgent\":null") ∧
    (i3bar_indexof "full_text" ≠ 0 ∧
      i3bar_dump_key "full_text" none = Except.ok ",\"full_text\":\"null\"") :=
  ⟨⟨by decide, (spec_c4_amended "urgent" (by decide)).trans (by rfl)⟩,
   ⟨by decide, (spec_c4_amended "full_text" (by decide)).trans (by rfl)⟩⟩

/-- C5: the claim states that every attribute value that is already valid
JSON is emitted verbatim.  Counterexample: the value 42 is valid JSON, but
under the string-flagged key `full_text` it is escaped and quoted rather
than emitted byte-for-byte. -/
theorem spec_c5_counterexample :
    json_is_valid "42" = true ∧
    i3bar_dump_key "full_text" (some "42") = Except.ok ",\"full_text\":\"42\"" ∧
    i3bar_dump_key "full_text" (some "42") ≠ Except.ok ",\"full_text\":42" := by
  refine ⟨by decide, rfl, fun h => ?_⟩
  rw [show i3bar_dump_key "full_text" (some "42") = Except.ok ",\"full_text\":\"42\"" from rfl] at h
  injection h with h
  exact absurd h (by decide)

/-- C5 (amended): a value is emitted byte-for-byte verbatim exactly when it
already has the JSON shape its key requires: any valid JSON value under a
key not flagged "must be a string", and a valid quoted JSON string under a
string-flagged key. -/
theorem spec_c5_amended (key v : String) (h : i3bar_indexof key ≠ 0)
    (hv : if (i3bar_keys.getD (i3bar_indexof key) ("", false)).2
          then json_is_string v = true else json_is_valid v = true) :
    i3bar_dump_key key (some v) = Except.ok (",\"" ++ key ++ "\":" ++ v) := by
  unfold i3bar_dump_key
  rw [if_neg h]
  cases hf : (i3bar_keys.getD (i3bar_indexof key) ("", false)).2
  · rw [hf] at hv
    simp only [hf, Bool.false_eq_true, if_false, Option.getD_some]
    rw [hv]
    rfl
  · rw [hf] at hv
    simp only [hf, if_true, Option.getD_some]
    rw [hv]
    rfl

/-- C5 witness: the amended claim evaluated on a number under a non-string
key and on a quoted string under a string-flagged key. -/
theorem spec_c5_amended_witness :
    (i3bar_indexof "min_width" ≠ 0 ∧
      i3bar_dump_key "min_width" (some "42") = Except.ok ",\"min_width\":42") ∧
    (i3bar_indexof "full_text" ≠ 0 ∧
      i3bar_dump_key "full_text" (some "\"hello\"") =
        Except.ok ",\"full_text\":\"hello\"") :=
  ⟨⟨by decide, (spec_c5_amended "min_width" "42" (by decide) (by decide)).trans (by rfl)⟩,
   ⟨by decide, (spec_c5_amended "full_text" "\"hello\"" (by decide) (by decide)).trans (by rfl)⟩⟩

/-- Helper: blocks without a `full_text` attribute contribute nothing to the
structured block-list encoding. -/
lemma i3bar_dump_blocks_filter (blocks : List Block) :
    i3bar_dump_blocks (blocks.filter (fun b => (block_get b "full_text").isSome)) =
      i3bar_dump_blocks blocks := by
  induction blocks with
  | nil => rfl
  | cons b rest ih =>
    cases hb : (block_get b "full_text").isSome
    · simp [List.filter_cons, hb, i3bar_dump_blocks, ih, String.empty_append]
    · simp [List.filter_cons, hb, i3bar_dump_blocks, ih]

/-- C6: in every structured dump, a block lacking `full_text` is omitted
entirely (dumping the list equals dumping its `full_text`-bearing
sublist), and the anchor object `{"full_text":""}` always opens the inner
array regardless of content. -/
theorem spec_c6 (blocks : List Block) :
    i3bar_dump blocks =
      i3bar_dump (blocks.filter (fun b => (block_get b "full_text").isSome)) ∧
    ∃ rest, i3bar_dump blocks = ",[\x7b\"full_text\":\"\"\x7d" ++ rest := by
  constructor
  · unfold i3bar_dump
    rw [i3bar_dump_blocks_filter]
  · exact ⟨i3bar_dump_blocks blocks ++ "]\n", by rw [i3bar_dump, String.append_assoc]⟩

/-- C7: the click-dispatch loop returns 0 on exhausted input and when the
decoder reports that no more data is available; any other decode failure,
a failure while merging the click into the block, or a failing click
action aborts the loop at that point and its error is the loop's result;
a run whose lines all decode and process successfully returns 0. -/
theorem spec_c7 :
    (∀ (se : String → Option String → Int) (act : Block → Int) (blocks : List Block),
      bar_click_go se act blocks [] = (0, blocks, [])) ∧
    (∀ (se : String → Option String → Int) (act : Block → Int) (blocks : List Block)
        (e : Int) (rest : List (Except Int AttrMap)), e ≠ 0 →
      bar_click_go se act blocks (Except.error e :: rest) =
        ((if e = -EAGAIN then 0 else e), blocks, [])) ∧
    (∀ (se : String → Option String → Int) (act : Block → Int) (blocks : List Block)
        (click : AttrMap) (rest : List (Except Int AttrMap)) (i : Nat),
      bar_find blocks click = some i →
      (merge_click se (blocks.getD i []) click).1 ≠ 0 →
      bar_click_go se act blocks (Except.ok click :: rest) =
        ((merge_click se (blocks.getD i []) click).1,
         blocks.set i (merge_click se (blocks.getD i []) click).2, [])) ∧
    (∀ (se : String → Option String → Int) (act : Block → Int) (blocks : List Block)
        (click : AttrMap) (rest : List (Except Int AttrMap)) (i : Nat),
      bar_find blocks click = some i →
      (merge_click se (blocks.getD i []) click).1 = 0 →
      act (merge_click se (blocks.getD i []) click).2 ≠ 0 →
      bar_click_go se act blocks (Except.ok click :: rest) =
        (act (merge_click se (blocks.getD i []) click).2,
         blocks.set i (merge_click se (blocks.getD i []) click).2, [i])) ∧
    (∀ (act : Block → Int), (∀ b, act b = 0) →
      ∀ (blocks : List Block) (clicks : List AttrMap),
      (bar_click_go zeroSet act blocks
        (clicks.map Except.ok ++ [Except.error (-EAGAIN)])).1 = 0) := by
  refine ⟨fun se act blocks => rfl, fun se act blocks e rest _ => by rw [bar_click_go],
    ?_, ?_, ?_⟩
  · intro se act blocks click rest i h hm
    rw [bar_click_go, h]
    dsimp only
    rw [if_neg hm]
  · intro se act blocks click rest i h hm ha
    rw [bar_click_go, h]
    dsimp only
    rw [if_pos hm, if_neg ha]
  · intro act hact blocks clicks
    induction clicks generalizing blocks with
    | nil => simp [bar_click_go]
    | cons c rest ih =>
      rw [List.map_cons, List.cons_append, bar_click_go]
      cases hf : bar_find blocks c
      · dsimp only
        exact ih blocks
      · dsimp only
        rw [merge_click_zero]
        dsimp only
        rw [hact]
        norm_num
        exact ih _

/-- C7 witness: the loop evaluated on a non-EAGAIN decode failure, on a
failing merge, on a failing click action, and on an all-success run closed
by the no-more-data condition. -/
theorem spec_c7_witness :
    bar_click_go zeroSet (fun _ => 0) [[]] [Except.error (-5)] = (-5, [[]], []) ∧
    bar_click_go (fun k _ => if k == "x" then -12 else 0) (fun _ => 0)
        [[("name", some "a")]]
        [Except.ok [("name", some "a"), ("x", some "y")]] =
      (-12, [[("name", some "a")]], []) ∧
    bar_click_go zeroSet (fun _ => -7) [[("name", some "a")]]
        [Except.ok [("name", some "a")]] =
      (-7, [[("name", some "a")]], [0]) ∧
    (bar_click_go zeroSet (fun _ => 0) [[]]
        ([[("name", some "a")]].map Except.ok ++ [Except.error (-EAGAIN)])).1 = 0 :=
  ⟨(spec_c7.2.1 zeroSet (fun _ => 0) [[]] (-5) [] (by decide)).trans (by decide),
   (spec_c7.2.2.1 (fun k _ => if k == "x" then -12 else 0) (fun _ => 0)
      [[("name", some "a")]] [("name", some "a"), ("x", some "y")] [] 0
      (by decide) (by decide)).trans (by decide),
   (spec_c7.2.2.2.1 zeroSet (fun _ => -7) [[("name", some "a")]]
      [("name", some "a")] [] 0 (by decide) (by decide) (by decide)).trans (by decide),
   spec_c7.2.2.2.2 (fun _ => 0) (fun _ => rfl) [[]] [[("name", some "a")]]⟩

/-- C8: structured-mode creation emits exactly the protocol preamble and
installs the Error Adapter as the log sink; structured-mode teardown emits
exactly the epilogue and uninstalls it. -/
theorem spec_c8 (installed : Bool) (bs : List Block) (f : Bool) :
    bar_create installed false =
      (⟨[[]], false, false⟩,
       "\x7b\"version\":1,\"click_events\":true\x7d\n[[]\n", true) ∧
    bar_destroy installed ⟨bs, false, f⟩ = ("]\n", false) :=
  ⟨rfl, rfl⟩

/-- C9: a successfully decoded click that matches no block is discarded
silently: the loop state (error, block list, invoked actions) is exactly
the state produced by the remaining input lines alone. -/
theorem spec_c9 (se : String → Option String → Int) (act : Block → Int)
    (blocks : List Block) (click : AttrMap) (rest : List (Except Int AttrMap))
    (h : bar_find blocks click = none) :
    bar_click_go se act blocks (Except.ok click :: rest) =
      bar_click_go se act blocks rest := by
  rw [bar_click_go, h]

/-- C9 witness: a click naming an unknown block leaves a one-block bar
untouched, invokes nothing and ends the batch without error. -/
theorem spec_c9_witness :
    bar_click_go zeroSet (fun _ => 0) [[]] [Except.ok [("name", some "a")]] =
      bar_click_go zeroSet (fun _ => 0) [[]] [] ∧
    bar_click_go zeroSet (fun _ => 0) [[]] [Except.ok [("name", some "a")]] =
      (0, [[]], []) :=
  ⟨spec_c9 zeroSet (fun _ => 0) [[]] [("name", some "a")] [] (by decide),
   (spec_c9 zeroSet (fun _ => 0) [[]] [("name", some "a")] [] (by decide)).trans
     (by decide)⟩

/-- C10: the frozen flag suppresses only scheduled dumps — `bar_dump` of a
frozen bar emits nothing — while a qualifying error/fatal log event writes
its out-of-band array element even when the bar is already frozen (the
bytes written do not depend on the frozen flag), and leaves the bar
frozen, so freezing is idempotent. -/
theorem spec_c10 (ll lvl : Nat) (msg : String) (bs : List Block) (t : Bool)
    (h1 : lvl ≤ ll) (h2 : lvl ≤ LOG_ERROR) :
    (i3bar_log ll lvl msg ⟨bs, t, true⟩).1 =
      (i3bar_log ll lvl msg ⟨bs, t, false⟩).1 ∧
    (∃ rest, (i3bar_log ll lvl msg ⟨bs, t, true⟩).1 = ",[" ++ rest) ∧
    (i3bar_log ll lvl msg ⟨bs, t, true⟩).2 = ⟨bs, t, true⟩ ∧
    bar_dump ⟨bs, t, true⟩ = "" := by
  have hcond : ¬(ll < lvl ∨ LOG_ERROR < lvl) := by
    unfold LOG_ERROR at *
    omega
  unfold i3bar_log
  simp only [if_neg hcond]
  refine ⟨by trivial, ?_, by trivial, by trivial⟩
  dsimp only
  exact append_head_pre _ _ (append_head_pre _ _ (append_head_pre _ _
    (append_head_pre _ _ (append_head_pre _ _ (append_head_pre _ _
      ⟨"\x7b\"full_text\":\"", rfl⟩)))))

/-- C10 witness: an error event at threshold 1 against an already frozen
structured bar. -/
theorem spec_c10_witness :
    (i3bar_log 1 LOG_ERROR "x" ⟨[[]], false, true⟩).1 =
      (i3bar_log 1 LOG_ERROR "x" ⟨[[]], false, false⟩).1 ∧
    (∃ rest, (i3bar_log 1 LOG_ERROR "x" ⟨[[]], false, true⟩).1 = ",[" ++ rest) ∧
    (i3bar_log 1 LOG_ERROR "x" ⟨[[]], false, true⟩).2 = ⟨[[]], false, true⟩ ∧
    bar_dump ⟨[[]], false, true⟩ = "" :=
  spec_c10 1 LOG_ERROR "x" [[]] false (by decide) (by decide)
